import Mathlib

/-!
# Rasterizer: the window loop of `src/Window/Window.cpp`

A shallow embedding of `Window.cpp`.  The C++ object is a record of its
member variables; each member function becomes a function on that record.
The calls into GLFW, OpenGL and the ImGui backends, the calls of the camera's
two input handlers and of the scene's `UpdateScene`, `selectModel` and
`LoadModel`, and the entries into the window's own member functions are
appended to a call log carried by the record, so that statements about
*which* calls happen, *how often* and *in which order* are statements about a
list.  Widget calls are represented by what they return; the accessors and
mutators of the selected model act on the record only.

Numbers: `double` and `float` values are rationals (`ℚ`), and the numbers of
the window title are computed exactly.  The one comparison of the file that
decides what a frame does, `timeDifference >= 1.0 / 60.0` on line 59, is made
as the program makes it, on IEEE 754 doubles: `roundDouble` rounds an exact
result to the nearest double, ties to even.  `int` is 32 bits wide and the
conversion of a size to `int` is `toInt32`.
-/

namespace Rasterizer

/-! ## Machine integers -/

/-- The value of `static_cast<int>(n)` for a 32-bit two's-complement `int`. -/
def toInt32 (n : Int) : Int := (n + 2147483648) % 4294967296 - 2147483648

/-! ## Double arithmetic -/

/-- The exponent of the unit in the last place of the doubles around `x`: a
normal double has 53 significant bits, and the exponent is never below that
of the subnormal doubles. -/
def ulpExponent (x : ℚ) : Int := max (Int.log 2 |x|) (-1022) - 52

/-- The integer nearest to `y`, the even one of the two when `y` lies half way. -/
def roundHalfEven (y : ℚ) : Int :=
  if y - ⌊y⌋ < 1 / 2 then ⌊y⌋
  else if 1 / 2 < y - ⌊y⌋ then ⌊y⌋ + 1
  else if ⌊y⌋ % 2 = 0 then ⌊y⌋
  else ⌊y⌋ + 1

/-- The double nearest to `x`, ties to even (the rounding of every IEEE 754
double operation).  The exponent has no upper limit here: where the program
would get an infinity this is a number of the same sign beyond every finite
double, which compares with `1.0 / 60.0` as the infinity does. -/
def roundDouble (x : ℚ) : ℚ := (roundHalfEven (x / 2 ^ ulpExponent x) : ℚ) * 2 ^ ulpExponent x

/-- The constant `1.0 / 60.0` of line 59: the quotient of the doubles 1 and
60, rounded. -/
def sixtieth : ℚ := roundDouble (1 / 60)

/-! ## `namespace ImGui` (lines 9-31) -/

namespace ImGui

/-- What one call of the getter lambda did. -/
inductive GetterResult where
  /-- Returned `false`; `*out_text` was not written and no element was read. -/
  | notAnItem
  /-- Returned `true` after `*out_text = vector.at(idx).c_str()`. -/
  | item (out_text : String)
  /-- The checked access `vector.at(idx)` threw `std::out_of_range`. -/
  | outOfRange
  deriving DecidableEq

/-- The lambda `vector_getter` (lines 11-17).
`vec` is the vector behind the `void*`, `idx` the requested item. -/
def vector_getter (vec : List String) (idx : Int) : GetterResult :=
  if idx < 0 ∨ idx ≥ toInt32 (vec.length : Int) then GetterResult.notAnItem
  else
    match vec.get? idx.toNat with
    | some s => GetterResult.item s
    | none => GetterResult.outOfRange

end ImGui

/-! ## Values -/

/-- A `glm::vec3`. -/
structure Vec3 where
  x : ℚ
  y : ℚ
  z : ℚ
  deriving DecidableEq

/-- A `glm::vec4`, also used for the `float lightColor[4]` member
(`x`, `y`, `z`, `w` are the elements 0 to 3). -/
structure Vec4 where
  x : ℚ
  y : ℚ
  z : ℚ
  w : ℚ
  deriving DecidableEq

/-! ## Collaborators declared outside `Window.cpp` -/

/-- Modelled from the spec: class `Model` (its header and body are not part of
`Window.cpp`).  Section 6 gives a display name and "accessors/mutators for the
selected model's position/rotation/scale". -/
structure Model where
  name : String
  position : Vec3
  rotation : Vec3
  scale : Vec3
  deriving DecidableEq

/-- Modelled from the spec: accessor `Model::getPosition` (class `Model` is missing). -/
def Model.getPosition (m : Model) : Vec3 := m.position

/-- Modelled from the spec: accessor `Model::getRotation` (class `Model` is missing). -/
def Model.getRotation (m : Model) : Vec3 := m.rotation

/-- Modelled from the spec: accessor `Model::getScale` (class `Model` is missing). -/
def Model.getScale (m : Model) : Vec3 := m.scale

/-- Modelled from the spec: mutator `Model::setPosition` (class `Model` is missing). -/
def Model.setPosition (m : Model) (p : Vec3) : Model := { m with position := p }

/-- Modelled from the spec: mutator `Model::setRotation` (class `Model` is missing). -/
def Model.setRotation (m : Model) (r : Vec3) : Model := { m with rotation := r }

/-- Modelled from the spec: mutator `Model::setScale` (class `Model` is missing). -/
def Model.setScale (m : Model) (s : Vec3) : Model := { m with scale := s }

/-- Modelled from the spec: the scene light (class `Light` is missing); only its
colour is written by `Window.cpp`. -/
structure Light where
  color : Vec4
  deriving DecidableEq

/-- Modelled from the spec: mutator `Light::setColor` (class `Light` is missing). -/
def Light.setColor (_l : Light) (c : Vec4) : Light := { color := c }

/-- Modelled from the spec: class `Camera` (missing).  Section 6 gives a mutable
`speed` field; the constructor call on lines 38-42 passes a width, a height and
a position. -/
structure Camera where
  width : Int
  height : Int
  Position : Vec3
  speed : ℚ
  deriving DecidableEq

/-- Modelled from the spec: class `Scene` (missing).  The model list is ordered;
the `selectedModel` pointer is the index of the model it points to ("an index
into the scene's model list"), `none` being the null pointer. -/
structure Scene where
  models : List Model
  selected : Option Nat
  light : Light
  deriving DecidableEq

/-- Modelled from the spec: `Scene::getModelNames` (class `Scene` is missing),
"ordered sequence of display names". -/
def Scene.getModelNames (s : Scene) : List String := s.models.map Model.name

/-- Modelled from the spec: `Scene::selectModel` (class `Scene` is missing),
"fails silently (no-op) if index out of range". -/
def Scene.selectModel (s : Scene) (index : Int) : Scene :=
  if 0 ≤ index ∧ index < (s.models.length : Int) then { s with selected := some index.toNat }
  else s

/-- Modelled from the spec: the object behind the pointer `Scene::selectedModel`
(class `Scene` is missing); `none` when the pointer designates no model of the
list ("validity is rechecked each time it is dereferenced"). -/
def Scene.selectedModel (s : Scene) : Option Model :=
  match s.selected with
  | some i => s.models.get? i
  | none => none

/-- Modelled from the spec: `Scene::isModelSelected` (class `Scene` is missing). -/
def Scene.isModelSelected (s : Scene) : Bool := s.selectedModel.isSome

/-- Modelled from the spec: a write through the pointer `Scene::selectedModel`
(class `Scene` is missing): the pointed-to model of the list is replaced by
`f` of itself. -/
def Scene.updateSelectedModel (s : Scene) (f : Model → Model) : Scene :=
  match s.selected with
  | some i =>
    match s.models.get? i with
    | some m => { s with models := s.models.set i (f m) }
    | none => s
  | none => s

/-- The member functions of the collaborators whose bodies `Window.cpp` calls but
does not contain, taken as parameters: the two camera input handlers, the
scene's per-frame update (the scene holds a reference to the camera) and the
model loader. -/
structure External where
  KeyboardInputs : Camera → Camera
  MouseInputs : Camera → ℚ → ℚ → Camera
  UpdateScene : Scene → Camera → Scene × Camera
  LoadModel : String → Scene → Scene

/-! ## The call log -/

/-- One entry of the call log: a call into GLFW, OpenGL, an ImGui backend, the
camera or the scene, or the entry into one of the window's own member
functions `HandleInputs`, `RenderImGUI`, `HandleImGUIInputs`.
`glfwSetWindowTitle` carries the two numbers that line 61 and line 62 hand to
`std::to_string`. -/
inductive Call where
  | glfwGetTime
  | glfwSetWindowTitle (FPS ms : ℚ)
  | HandleInputs
  | glfwGetCursorPos
  | KeyboardInputs
  | MouseInputs (mouseX mouseY : ℚ)
  | glClearColor
  | glClear
  | UpdateScene
  | RenderImGUI
  | ImGui_ImplOpenGL3_NewFrame
  | ImGui_ImplGlfw_NewFrame
  | ImGui_NewFrame
  | ImGui_Begin
  | selectModel (index : Int)
  | LoadModel (path : String)
  | ImGui_End
  | ImGui_Render
  | ImGui_ImplOpenGL3_RenderDrawData
  | HandleImGUIInputs
  | glfwSwapBuffers
  | glfwPollEvents
  | ImGui_ImplOpenGL3_Shutdown
  | ImGui_ImplGlfw_Shutdown
  | ImGui_DestroyContext
  | glfwDestroyWindow
  | glfwTerminate
  deriving DecidableEq

/-! ## What the outside world supplies during one frame -/

/-- The results of the widget calls made between `ImGui::Begin` and
`ImGui::End` in one frame, and the capture flags ImGui reports afterwards.
For a slider, text field or colour picker `none` means the widget left its
variable alone. -/
structure Overlay where
  comboPick : Option Int
  pathEdit : Option String
  loadPressed : Bool
  positionOpen : Bool
  rotationOpen : Bool
  scaleOpen : Bool
  PosX : Option ℚ
  PosY : Option ℚ
  PosZ : Option ℚ
  RotX : Option ℚ
  RotY : Option ℚ
  RotZ : Option ℚ
  ScaleX : Option ℚ
  ScaleY : Option ℚ
  ScaleZ : Option ℚ
  lightColorEdit : Option Vec4
  cameraSpeedEdit : Option ℚ
  WantCaptureKeyboard : Bool
  WantCaptureMouse : Bool

/-- Everything one call of `Window::Update` reads from outside: the value of
`glfwGetTime()`, the cursor position `glfwGetCursorPos` would report, and the
overlay interaction. -/
structure FrameInput where
  now : ℚ
  cursor : ℚ × ℚ
  ui : Overlay

/-! ## `class Window` -/

/-- The member variables of `Window` that `Update`, `closeWindow`,
`RenderImGUI`, `HandleImGUIInputs` and `HandleInputs` read or write, and the
call log.  The members `width`, `height`, `name` and `windowObject` are only
handed on to GLFW and the camera and are left out.  The members are declared
in `Window.h`: the three clock members are taken to be `double`s, as
`glfwGetTime` returns one, and `counter` is a natural number here and counts
without wrapping. -/
structure Window where
  currentTime : ℚ
  previousTime : ℚ
  timeDifference : ℚ
  counter : Nat
  selectedItemIndex : Int
  position : Vec3
  rotation : Vec3
  scale : Vec3
  lightColor : Vec4
  cameraSpeed : ℚ
  pathInputText : String
  isKeyboardLockedByImGUI : Bool
  isMouseLockedByImGUI : Bool
  scene : Scene
  sceneCamera : Camera
  log : List Call

/-- Append one call to the log. -/
def Window.emit (w : Window) (c : Call) : Window := { w with log := w.log ++ [c] }

namespace ImGui

/-- The library overload `ImGui::Combo(label, current_item, getter, data,
items_count)`, which is part of Dear ImGui and not of this repository.
`pick` is the item the user clicked in the popup, if any; the library offers
the items `0 .. items_count - 1` only (it asks the getter for the text of
each), and on a click writes the item to `*current_item` and returns `true`.
The result is the returned flag and the new `*current_item`. -/
def ComboItems (pick : Option Int) (currIndex : Int) (items_count : Int) : Bool × Int :=
  match pick with
  | some h => if 0 ≤ h ∧ h < items_count then (true, h) else (false, currIndex)
  | none => (false, currIndex)

/-- The overload `ImGui::Combo(label, currIndex, values)` of lines 19-23.  It
hands `vector_getter` and `values.size()`, converted to `int`, to
`ComboItems`. -/
def Combo (pick : Option Int) (currIndex : Int) (values : List String) : Bool × Int :=
  if values.isEmpty then (false, currIndex)
  else ComboItems pick currIndex (toInt32 (values.length : Int))

/-- An `ImGui::SliderFloat` (or `InputText`, `ColorEdit4`) acting on the
variable it was given the address of. -/
def edit {α : Type} (change : Option α) (v : α) : α := change.getD v

end ImGui

/-- Lines 148-151 of `RenderImGUI`: the body of the `if` around the combo.
`none` is the dereference of a null `selectedModel`. -/
def pullSelection (w : Window) : Option Window :=
  let scene := w.scene.selectModel w.selectedItemIndex
  match scene.selectedModel with
  | none => none
  | some m =>
    some { w with
      scene := scene
      position := m.getPosition
      rotation := m.getRotation
      scale := m.getScale
      log := w.log ++ [Call.selectModel w.selectedItemIndex] }

/-- Lines 146-152 of `RenderImGUI`: the combo is shown for the names fetched
on line 145, and on a change the selection is pulled into the snapshot. -/
def selectionCombo (pick : Option Int) (modelNames : List String) (w : Window) :
    Option Window :=
  let r := ImGui.Combo pick w.selectedItemIndex modelNames
  let w := { w with selectedItemIndex := r.2 }
  if r.1 then pullSelection w else some w

/-- Lines 160-184 of `RenderImGUI`: the sliders under the three collapsing
headers and the colour picker. -/
def transformWidgets (ui : Overlay) (w : Window) : Window :=
  let w := if ui.positionOpen then
      { w with position :=
          { x := ImGui.edit ui.PosX w.position.x
            y := ImGui.edit ui.PosY w.position.y
            z := ImGui.edit ui.PosZ w.position.z } }
    else w
  let w := if ui.rotationOpen then
      { w with rotation :=
          { x := ImGui.edit ui.RotX w.rotation.x
            y := ImGui.edit ui.RotY w.rotation.y
            z := ImGui.edit ui.RotZ w.rotation.z } }
    else w
  let w := if ui.scaleOpen then
      { w with scale :=
          { x := ImGui.edit ui.ScaleX w.scale.x
            y := ImGui.edit ui.ScaleY w.scale.y
            z := ImGui.edit ui.ScaleZ w.scale.z } }
    else w
  { w with lightColor := ImGui.edit ui.lightColorEdit w.lightColor }

/-- Lines 154-196 of `RenderImGUI`: the path field, the load button, the
transform widgets, the camera-speed slider, the end of the ImGui frame and
the two capture flags. -/
def widgetsAndRender (ext : External) (ui : Overlay) (modelNames : List String)
    (w : Window) : Window :=
  let w := { w with pathInputText := ImGui.edit ui.pathEdit w.pathInputText }
  let w := if ui.loadPressed then
      { w with
        scene := ext.LoadModel w.pathInputText w.scene
        log := w.log ++ [Call.LoadModel w.pathInputText] }
    else w
  let w := if modelNames.length > 0 then transformWidgets ui w else w
  let w := { w with cameraSpeed := ImGui.edit ui.cameraSpeedEdit w.cameraSpeed }
  let w := w.emit Call.ImGui_End
  let w := w.emit Call.ImGui_Render
  let w := w.emit Call.ImGui_ImplOpenGL3_RenderDrawData
  { w with
    isKeyboardLockedByImGUI := ui.WantCaptureKeyboard
    isMouseLockedByImGUI := ui.WantCaptureMouse }

/-- Lines 137-143 of `RenderImGUI`: the start of the ImGui frame. -/
def beginOverlay (w : Window) : Window :=
  let w := w.emit Call.RenderImGUI
  let w := w.emit Call.ImGui_ImplOpenGL3_NewFrame
  let w := w.emit Call.ImGui_ImplGlfw_NewFrame
  let w := w.emit Call.ImGui_NewFrame
  w.emit Call.ImGui_Begin

/-- Member function `Window::RenderImGUI` (lines 135-197).  The label argument of the combo
and the slider ranges only concern the display and are not represented. -/
def RenderImGUI (ext : External) (ui : Overlay) (w : Window) : Option Window :=
  let w := beginOverlay w
  let modelNames := w.scene.getModelNames
  (selectionCombo ui.comboPick modelNames w).map (widgetsAndRender ext ui modelNames)

/-- Member function `Window::HandleImGUIInputs` (lines 199-209). -/
def HandleImGUIInputs (w : Window) : Window :=
  let w := w.emit Call.HandleImGUIInputs
  let w := if w.scene.isModelSelected then
      let w := { w with scene := w.scene.updateSelectedModel (fun m => m.setPosition w.position) }
      let w := { w with scene := w.scene.updateSelectedModel (fun m => m.setRotation w.rotation) }
      { w with scene := w.scene.updateSelectedModel (fun m => m.setScale w.scale) }
    else w
  let w := { w with sceneCamera := { w.sceneCamera with speed := w.cameraSpeed } }
  let color : Vec4 :=
    { x := w.lightColor.x, y := w.lightColor.y, z := w.lightColor.z, w := w.lightColor.w }
  { w with scene := { w.scene with light := w.scene.light.setColor color } }

/-- Member function `Window::HandleInputs` (lines 211-228).  `cursor` is what
`glfwGetCursorPos` stores into `mouseX` and `mouseY`. -/
def HandleInputs (ext : External) (cursor : ℚ × ℚ) (w : Window) : Window :=
  let w := w.emit Call.HandleInputs
  let w := w.emit Call.glfwGetCursorPos
  let mouseX := cursor.1
  let mouseY := cursor.2
  let w := if !w.isKeyboardLockedByImGUI then
      { w with
        sceneCamera := ext.KeyboardInputs w.sceneCamera
        log := w.log ++ [Call.KeyboardInputs] }
    else w
  let w := if !w.isMouseLockedByImGUI then
      { w with
        sceneCamera := ext.MouseInputs w.sceneCamera mouseX mouseY
        log := w.log ++ [Call.MouseInputs mouseX mouseY] }
    else w
  w

/-- Lines 56-68 of `Update`: the clock is read, the frame is counted, and when
the time since `previousTime` is at least `1.0 / 60.0` the title is rewritten,
`previousTime` is moved and the camera inputs are handled.  The member
`timeDifference` holds the exact difference of the two clock readings; the
double that line 57 stores and line 59 compares is `roundDouble` of it. -/
def frameTiming (ext : External) (inp : FrameInput) (w : Window) : Window :=
  let w := w.emit Call.glfwGetTime
  let w := { w with currentTime := inp.now }
  let w := { w with timeDifference := w.currentTime - w.previousTime }
  let w := { w with counter := w.counter + 1 }
  if roundDouble w.timeDifference ≥ sixtieth then
    let FPS := (1 / w.timeDifference) * (w.counter : ℚ)
    let ms := (w.timeDifference / (w.counter : ℚ)) * 1000
    let w := w.emit (Call.glfwSetWindowTitle FPS ms)
    let w := { w with previousTime := w.currentTime }
    HandleInputs ext inp.cursor w
  else w

/-- Lines 69-72 of `Update`: the framebuffer is cleared and the scene updated. -/
def clearAndUpdateScene (ext : External) (w : Window) : Window :=
  let w := w.emit Call.glClearColor
  let w := w.emit Call.glClear
  let r := ext.UpdateScene w.scene w.sceneCamera
  { w with scene := r.1, sceneCamera := r.2, log := w.log ++ [Call.UpdateScene] }

/-- Lines 75-80 of `Update`: the snapshot is pushed, the buffers are swapped
and the GLFW events are polled. -/
def pushAndPresent (w : Window) : Window :=
  let w := HandleImGUIInputs w
  let w := w.emit Call.glfwSwapBuffers
  w.emit Call.glfwPollEvents

/-- Member function `Window::Update` (lines 53-81). -/
def Update (ext : External) (inp : FrameInput) (w : Window) : Option Window :=
  let w := frameTiming ext inp w
  let w := clearAndUpdateScene ext w
  (RenderImGUI ext inp.ui w).map pushAndPresent

/-- Member function `Window::closeWindow` (lines 83-91). -/
def closeWindow (w : Window) : Window :=
  let w := w.emit Call.ImGui_ImplOpenGL3_Shutdown
  let w := w.emit Call.ImGui_ImplGlfw_Shutdown
  let w := w.emit Call.ImGui_DestroyContext
  let w := w.emit Call.glfwDestroyWindow
  w.emit Call.glfwTerminate

/-- The destructor `Window::~Window` (line 49). -/
def destroy (w : Window) : Window := closeWindow w

/-! ## Observing a frame -/

/-- The steps of a frame that section 2 of the specification names, apart
from the clock and the clear. -/
inductive Step where
  | inputDispatch
  | sceneUpdate
  | overlayRender
  | stateSync
  | present
  | pollEvents
  deriving DecidableEq

/-- The step a call starts, if any: `HandleInputs` is the input dispatch,
`Scene::UpdateScene` the scene update, `RenderImGUI` the overlay render,
`HandleImGUIInputs` the state sync, `glfwSwapBuffers` the present and
`glfwPollEvents` the event polling. -/
def Call.step : Call → Option Step
  | Call.HandleInputs => some Step.inputDispatch
  | Call.UpdateScene => some Step.sceneUpdate
  | Call.RenderImGUI => some Step.overlayRender
  | Call.HandleImGUIInputs => some Step.stateSync
  | Call.glfwSwapBuffers => some Step.present
  | Call.glfwPollEvents => some Step.pollEvents
  | _ => none

/-- The frame rate and frame time of a title update, if the call is one. -/
def Call.title : Call → Option (ℚ × ℚ)
  | Call.glfwSetWindowTitle FPS ms => some (FPS, ms)
  | _ => none

/-- The cursor coordinates handed to the camera's mouse handler, if the call
is one to it. -/
def Call.mouse : Call → Option (ℚ × ℚ)
  | Call.MouseInputs mouseX mouseY => some (mouseX, mouseY)
  | _ => none

/-- The steps of a list of calls, in order. -/
def steps (calls : List Call) : List Step := calls.filterMap Call.step

/-- The title updates of a list of calls, in order. -/
def titles (calls : List Call) : List (ℚ × ℚ) := calls.filterMap Call.title

/-- The calls to the camera's mouse handler in a list of calls, in order. -/
def mouseCalls (calls : List Call) : List (ℚ × ℚ) := calls.filterMap Call.mouse

/-- The calls one `Update` adds to the log. -/
def frameCalls (ext : External) (inp : FrameInput) (w : Window) : List Call :=
  match Update ext inp w with
  | some w' => w'.log.drop w.log.length
  | none => []

/-- The main loop: one `Update` per frame input, in order. -/
def run (ext : External) : List FrameInput → Window → Option Window
  | [], w => some w
  | inp :: rest, w =>
    match Update ext inp w with
    | some w' => run ext rest w'
    | none => none

/-- The clock readings of the frames of a run during which `HandleInputs` was
entered, in order. -/
def dispatchTimes (ext : External) : List FrameInput → Window → List ℚ
  | [], _ => []
  | inp :: rest, w =>
    match Update ext inp w with
    | some w' =>
      (if Call.HandleInputs ∈ frameCalls ext inp w then [inp.now] else [])
        ++ dispatchTimes ext rest w'
    | none => []

/-- The calls of lines 59-68 of `Update` for the window `w` that `Update` is
called on: none unless the comparison of line 59 succeeds. -/
def gateCalls (inp : FrameInput) (w : Window) : List Call :=
  if roundDouble (inp.now - w.previousTime) ≥ sixtieth then
    [Call.glfwSetWindowTitle (1 / (inp.now - w.previousTime) * ((w.counter + 1 : Nat) : ℚ))
        ((inp.now - w.previousTime) / ((w.counter + 1 : Nat) : ℚ) * 1000),
      Call.HandleInputs, Call.glfwGetCursorPos]
      ++ (if w.isKeyboardLockedByImGUI then [] else [Call.KeyboardInputs])
      ++ (if w.isMouseLockedByImGUI then [] else [Call.MouseInputs inp.cursor.1 inp.cursor.2])
  else []

/-- A call that starts no step, sets no title and is not `HandleInputs`. -/
def Call.quiet (c : Call) : Prop := c.step = none ∧ c.title = none ∧ c ≠ Call.HandleInputs

instance (c : Call) : Decidable c.quiet :=
  inferInstanceAs (Decidable (c.step = none ∧ c.title = none ∧ c ≠ Call.HandleInputs))

/-- The five release calls of `closeWindow`, in order. -/
def releaseCalls : List Call :=
  [Call.ImGui_ImplOpenGL3_Shutdown, Call.ImGui_ImplGlfw_Shutdown, Call.ImGui_DestroyContext,
    Call.glfwDestroyWindow, Call.glfwTerminate]

/-- The title the specification asks for on a gated tick: `n / T` frames per
second and `(T / n) * 1000` milliseconds, for `n` frames counted in the `T`
seconds since the previous gate. -/
def averagedTitle (T : ℚ) (n : Nat) : ℚ × ℚ := ((n : ℚ) / T, T / (n : ℚ) * 1000)

/-! ## Sample data -/

/-- Collaborators that leave the camera and the scene as they are. -/
def sampleExternal : External :=
  { KeyboardInputs := fun c => c
    MouseInputs := fun c _ _ => c
    UpdateScene := fun s c => (s, c)
    LoadModel := fun _ s => s }

/-- A scene with the two models "cube" and "sphere", none selected. -/
def sampleScene : Scene :=
  { models :=
      [ { name := "cube", position := ⟨1, 2, 3⟩, rotation := ⟨0, 0, 0⟩, scale := ⟨1, 1, 1⟩ },
        { name := "sphere", position := ⟨4, 5, 6⟩, rotation := ⟨7, 8, 9⟩, scale := ⟨1, 1, 1⟩ } ]
    selected := none
    light := ⟨⟨1, 1, 1, 1⟩⟩ }

/-- A window whose clock members and counter are zero and whose log is empty. -/
def sampleWindow : Window :=
  { currentTime := 0
    previousTime := 0
    timeDifference := 0
    counter := 0
    selectedItemIndex := 0
    position := ⟨0, 0, 0⟩
    rotation := ⟨0, 0, 0⟩
    scale := ⟨0, 0, 0⟩
    lightColor := ⟨1, 1, 1, 1⟩
    cameraSpeed := 1
    pathInputText := ""
    isKeyboardLockedByImGUI := false
    isMouseLockedByImGUI := false
    scene := sampleScene
    sceneCamera := { width := 800, height := 800, Position := ⟨0, 0, 2⟩, speed := 1 }
    log := [] }

/-- An overlay frame in which the user touches nothing. -/
def idleOverlay : Overlay :=
  { comboPick := none
    pathEdit := none
    loadPressed := false
    positionOpen := false
    rotationOpen := false
    scaleOpen := false
    PosX := none
    PosY := none
    PosZ := none
    RotX := none
    RotY := none
    RotZ := none
    ScaleX := none
    ScaleY := none
    ScaleZ := none
    lightColorEdit := none
    cameraSpeedEdit := none
    WantCaptureKeyboard := false
    WantCaptureMouse := false }

/-- A frame at clock reading `t` with the cursor at (3, 4) and an idle overlay. -/
def sampleFrame (t : ℚ) : FrameInput := { now := t, cursor := (3, 4), ui := idleOverlay }

/-! ## Auxiliary facts -/

theorem roundHalfEven_le (y : ℚ) : (roundHalfEven y : ℚ) ≤ y + 1 / 2 := by
  have hf := Int.floor_le y
  unfold roundHalfEven
  split_ifs with h1 h2 h3
  · linarith
  · push_cast; linarith
  · linarith
  · push_cast; linarith

theorem le_roundHalfEven (y : ℚ) (m : ℤ) (h : (m : ℚ) ≤ y) : m ≤ roundHalfEven y := by
  have hf : m ≤ ⌊y⌋ := Int.le_floor.mpr h
  unfold roundHalfEven
  split_ifs <;> omega

theorem roundHalfEven_floor (y : ℚ) (m : ℤ) (h1 : (m : ℚ) ≤ y) (h2 : y < m + 1 / 2) :
    roundHalfEven y = m := by
  have hf : ⌊y⌋ = m := Int.floor_eq_iff.mpr ⟨h1, by linarith⟩
  unfold roundHalfEven
  rw [hf, if_pos (by linarith)]

theorem log_sixty : Int.log 2 |(1 / 60 : ℚ)| = -6 := by
  have hpos : (0 : ℚ) < |(1 / 60 : ℚ)| := by norm_num
  apply le_antisymm
  · have : Int.log 2 |(1 / 60 : ℚ)| < -5 := by
      rw [← Int.lt_zpow_iff_log_lt (by norm_num) hpos]
      norm_num [abs_of_pos]
    omega
  · rw [← Int.zpow_le_iff_le_log (by norm_num) hpos]
    norm_num [abs_of_pos]

theorem sixtieth_eq : sixtieth = 4803839602528529 / 288230376151711744 := by
  unfold sixtieth roundDouble ulpExponent
  rw [log_sixty]
  have hq : max (-6 : ℤ) (-1022) - 52 = -58 := by decide
  rw [hq, roundHalfEven_floor _ 4803839602528529 (by norm_num) (by norm_num)]
  norm_num

theorem roundDouble_le (x : ℚ) : roundDouble x ≤ x + 2 ^ ulpExponent x / 2 := by
  have hp : (0 : ℚ) < 2 ^ ulpExponent x := zpow_pos (by norm_num) _
  have h := roundHalfEven_le (x / 2 ^ ulpExponent x)
  have h2 := mul_le_mul_of_nonneg_right h hp.le
  unfold roundDouble
  calc (roundHalfEven (x / 2 ^ ulpExponent x) : ℚ) * 2 ^ ulpExponent x
      ≤ (x / 2 ^ ulpExponent x + 1 / 2) * 2 ^ ulpExponent x := h2
    _ = x + 2 ^ ulpExponent x / 2 := by field_simp; ring

theorem le_roundDouble (x : ℚ) (m : ℤ) (h : (m : ℚ) * 2 ^ ulpExponent x ≤ x) :
    (m : ℚ) * 2 ^ ulpExponent x ≤ roundDouble x := by
  have hp : (0 : ℚ) < 2 ^ ulpExponent x := zpow_pos (by norm_num) _
  have hy : (m : ℚ) ≤ x / 2 ^ ulpExponent x := (le_div_iff₀ hp).mpr h
  have hm : (m : ℚ) ≤ (roundHalfEven (x / 2 ^ ulpExponent x) : ℚ) := by
    exact_mod_cast le_roundHalfEven _ m hy
  unfold roundDouble
  exact mul_le_mul_of_nonneg_right hm hp.le

/-- A difference of at least the constant passes the comparison of line 59. -/
theorem sixtieth_le_roundDouble (x : ℚ) (h : sixtieth ≤ x) : sixtieth ≤ roundDouble x := by
  rw [sixtieth_eq] at h ⊢
  have hx : (0 : ℚ) < x := lt_of_lt_of_le (by norm_num) h
  have habs : |x| = x := abs_of_pos hx
  have hlog : -6 ≤ Int.log 2 x := by
    rw [← Int.zpow_le_iff_le_log (by norm_num) hx]
    exact le_trans (by norm_num) h
  have hq : ulpExponent x = Int.log 2 x - 52 := by
    unfold ulpExponent
    rw [habs, max_eq_left (by omega)]
  rcases eq_or_lt_of_le hlog with he | he
  · have hq' : ulpExponent x = -58 := by rw [hq, ← he]; rfl
    have := le_roundDouble x 4803839602528529 (by rw [hq']; norm_num; linarith)
    rw [hq'] at this
    refine le_trans ?_ this
    norm_num
  · have hpow : (2 : ℚ) ^ Int.log 2 x ≤ x := by
      have := Int.zpow_log_le_self (b := 2) (by norm_num) hx
      simpa using this
    have hsplit : ((4503599627370496 : ℤ) : ℚ) * 2 ^ ulpExponent x = 2 ^ Int.log 2 x := by
      rw [hq, zpow_sub₀ (by norm_num)]
      norm_num
      ring
    have := le_roundDouble x 4503599627370496 (by rw [hsplit]; exact hpow)
    rw [hsplit] at this
    refine le_trans ?_ this
    have h5 : (2 : ℚ) ^ (-5 : ℤ) ≤ 2 ^ Int.log 2 x :=
      zpow_le_zpow_right₀ (by norm_num) (by omega)
    refine le_trans ?_ h5
    norm_num

/-- A difference that passes the comparison of line 59 is at most half a unit
in the last place below the constant. -/
theorem le_of_sixtieth_le_roundDouble (x : ℚ) (h : sixtieth ≤ roundDouble x) :
    sixtieth - 1 / 2 ^ 59 ≤ x := by
  by_contra hlt
  push_neg at hlt
  rw [sixtieth_eq] at h hlt
  have hr := roundDouble_le x
  rcases le_or_lt x 0 with h0 | h0
  · have hp : (0 : ℚ) < 2 ^ ulpExponent x := zpow_pos (by norm_num) _
    have hy : x / 2 ^ ulpExponent x ≤ 0 := div_nonpos_of_nonpos_of_nonneg h0 hp.le
    have h1 := roundHalfEven_le (x / 2 ^ ulpExponent x)
    have h2 : roundHalfEven (x / 2 ^ ulpExponent x) ≤ 0 := by
      have : (roundHalfEven (x / 2 ^ ulpExponent x) : ℚ) < 1 := by linarith
      have : roundHalfEven (x / 2 ^ ulpExponent x) < 1 := by exact_mod_cast this
      omega
    have h3 : roundDouble x ≤ 0 := by
      unfold roundDouble
      exact mul_nonpos_of_nonpos_of_nonneg (by exact_mod_cast h2) hp.le
    linarith
  · have habs : |x| = x := abs_of_pos h0
    have hlog : Int.log 2 x < -5 := by
      rw [← Int.lt_zpow_iff_log_lt (by norm_num) h0]
      refine lt_trans hlt ?_
      norm_num
    have hq : ulpExponent x ≤ -58 := by
      unfold ulpExponent
      rw [habs]
      have : max (Int.log 2 x) (-1022) ≤ -6 := max_le (by omega) (by decide)
      omega
    have hpow : (2 : ℚ) ^ ulpExponent x ≤ 2 ^ (-58 : ℤ) :=
      zpow_le_zpow_right₀ (by norm_num) hq
    have h58 : (2 : ℚ) ^ (-58 : ℤ) = 1 / 2 ^ 58 := by norm_num
    rw [h58] at hpow
    have : roundDouble x < 4803839602528529 / 288230376151711744 := by
      calc roundDouble x ≤ x + 2 ^ ulpExponent x / 2 := hr
        _ ≤ x + (1 / 2 ^ 58) / 2 := by linarith
        _ < 4803839602528529 / 288230376151711744 := by
          have e : ((1 : ℚ) / 2 ^ 58) / 2 = 1 / 2 ^ 59 := by norm_num
          rw [e]; linarith
    linarith

theorem sample_gate :
    roundDouble ((sampleFrame (1 / 50)).now - sampleWindow.previousTime) ≥ sixtieth :=
  sixtieth_le_roundDouble _ (by rw [sixtieth_eq]; norm_num [sampleFrame, sampleWindow])

theorem toInt32_le (n : Int) (h : 0 ≤ n) : toInt32 n ≤ n := by
  unfold toInt32; omega

theorem toInt32_eq (n : Int) (h0 : 0 ≤ n) (h : n < 2147483648) : toInt32 n = n := by
  unfold toInt32; omega

theorem pullSelection_valid (w : Window) (m : Model)
    (h0 : 0 ≤ w.selectedItemIndex)
    (hm : w.scene.models.get? w.selectedItemIndex.toNat = some m) :
    pullSelection w = some { w with
      scene := { w.scene with selected := some w.selectedItemIndex.toNat }
      position := m.position
      rotation := m.rotation
      scale := m.scale
      log := w.log ++ [Call.selectModel w.selectedItemIndex] } := by
  obtain ⟨hlt, hg⟩ := List.get?_eq_some.mp hm
  have hg2 : w.scene.models[w.selectedItemIndex.toNat] = m := by simpa using hg
  have hlt2 : w.selectedItemIndex < (w.scene.models.length : Int) := by omega
  simp [pullSelection, Scene.selectModel, Scene.selectedModel, h0, hlt2, hg2,
    Model.getPosition, Model.getRotation, Model.getScale]

theorem Combo_true (pick : Option Int) (cur : Int) (values : List String) (h : Int)
    (hc : ImGui.Combo pick cur values = (true, h)) :
    0 ≤ h ∧ h < (values.length : Int) := by
  unfold ImGui.Combo ImGui.ComboItems at hc
  have := toInt32_le (values.length : Int) (by omega)
  split at hc
  · simp at hc
  · split at hc
    · split at hc
      · simp at hc; omega
      · simp at hc
    · simp at hc

/-- The combo block always returns: what the library reports is an index of
the name list, hence of the model list. -/
theorem selectionCombo_spec (pick : Option Int) (w : Window) :
    ∃ w' r, selectionCombo pick w.scene.getModelNames w = some w' ∧ w'.log = w.log ++ r ∧
      (∀ c ∈ r, c.quiet) ∧
      w'.previousTime = w.previousTime ∧ w'.counter = w.counter := by
  rcases hc : ImGui.Combo pick w.selectedItemIndex w.scene.getModelNames with ⟨b, h⟩
  cases b
  · refine ⟨{ w with selectedItemIndex := h }, [], ?_, ?_, ?_, rfl, rfl⟩
    · simp [selectionCombo, hc]
    · simp
    · simp
  · obtain ⟨h0, hlt⟩ := Combo_true _ _ _ _ hc
    have hlen : h.toNat < w.scene.models.length := by
      simp [Scene.getModelNames] at hlt; omega
    obtain ⟨m, hm⟩ : ∃ m, w.scene.models.get? h.toNat = some m :=
      ⟨_, List.get?_eq_get hlen⟩
    have hp := pullSelection_valid { w with selectedItemIndex := h } m h0 hm
    have e : selectionCombo pick w.scene.getModelNames w
        = pullSelection { w with selectedItemIndex := h } := by
      simp only [selectionCombo, hc, if_true]
    exact ⟨_, [Call.selectModel h], e.trans hp, by simp, by simp [Call.quiet, Call.step, Call.title],
      rfl, rfl⟩

theorem transformWidgets_frame (ui : Overlay) (w : Window) :
    (transformWidgets ui w).log = w.log ∧
      (transformWidgets ui w).previousTime = w.previousTime ∧
      (transformWidgets ui w).counter = w.counter := by
  unfold transformWidgets
  refine ⟨?_, ?_, ?_⟩ <;> (dsimp only; split_ifs <;> rfl)

theorem widgetsAndRender_spec (ext : External) (ui : Overlay) (names : List String) (w : Window) :
    ∃ r, (widgetsAndRender ext ui names w).log = w.log ++ r ∧ (∀ c ∈ r, c.quiet) ∧
      (widgetsAndRender ext ui names w).previousTime = w.previousTime ∧
      (widgetsAndRender ext ui names w).counter = w.counter := by
  refine ⟨(if ui.loadPressed then [Call.LoadModel (ImGui.edit ui.pathEdit w.pathInputText)] else [])
      ++ [Call.ImGui_End, Call.ImGui_Render, Call.ImGui_ImplOpenGL3_RenderDrawData], ?_, ?_, ?_, ?_⟩
  · unfold widgetsAndRender
    simp only [Window.emit]
    split_ifs <;> simp [(transformWidgets_frame _ _).1]
  · intro c hc
    split_ifs at hc <;> simp at hc <;> rcases hc with rfl | rfl | rfl | rfl <;>
      simp [Call.quiet, Call.step, Call.title]
  · unfold widgetsAndRender
    simp only [Window.emit]
    split_ifs <;> simp [(transformWidgets_frame _ _).2.1]
  · unfold widgetsAndRender
    simp only [Window.emit]
    split_ifs <;> simp [(transformWidgets_frame _ _).2.2]

theorem beginOverlay_frame (w : Window) :
    (beginOverlay w).log = w.log ++ [Call.RenderImGUI, Call.ImGui_ImplOpenGL3_NewFrame,
        Call.ImGui_ImplGlfw_NewFrame, Call.ImGui_NewFrame, Call.ImGui_Begin] ∧
      (beginOverlay w).previousTime = w.previousTime ∧
      (beginOverlay w).counter = w.counter := by
  simp [beginOverlay, Window.emit]

theorem RenderImGUI_spec (ext : External) (ui : Overlay) (w : Window) :
    ∃ w' r, RenderImGUI ext ui w = some w' ∧ w'.log = w.log ++ Call.RenderImGUI :: r ∧
      (∀ c ∈ r, c.quiet) ∧
      w'.previousTime = w.previousTime ∧ w'.counter = w.counter := by
  obtain ⟨w1, r1, h1, hlog1, hq1, hp1, hc1⟩ := selectionCombo_spec ui.comboPick (beginOverlay w)
  obtain ⟨r2, hlog2, hq2, hp2, hc2⟩ :=
    widgetsAndRender_spec ext ui (beginOverlay w).scene.getModelNames w1
  refine ⟨widgetsAndRender ext ui (beginOverlay w).scene.getModelNames w1,
    [Call.ImGui_ImplOpenGL3_NewFrame, Call.ImGui_ImplGlfw_NewFrame, Call.ImGui_NewFrame,
      Call.ImGui_Begin] ++ r1 ++ r2, ?_, ?_, ?_, ?_, ?_⟩
  · simp only [RenderImGUI, h1, Option.map_some']
  · rw [hlog2, hlog1, (beginOverlay_frame w).1]
    simp
  · intro c hc
    simp only [List.mem_append, List.mem_cons, List.mem_singleton, List.not_mem_nil,
      or_false] at hc
    rcases hc with ((rfl | rfl | rfl | rfl) | hc) | hc
    · simp [Call.quiet, Call.step, Call.title]
    · simp [Call.quiet, Call.step, Call.title]
    · simp [Call.quiet, Call.step, Call.title]
    · simp [Call.quiet, Call.step, Call.title]
    · exact hq1 c hc
    · exact hq2 c hc
  · exact hp2.trans (hp1.trans (beginOverlay_frame w).2.1)
  · exact hc2.trans (hc1.trans (beginOverlay_frame w).2.2)

theorem HandleImGUIInputs_frame (w : Window) :
    (HandleImGUIInputs w).log = w.log ++ [Call.HandleImGUIInputs] ∧
      (HandleImGUIInputs w).previousTime = w.previousTime ∧
      (HandleImGUIInputs w).counter = w.counter := by
  by_cases h : w.scene.isModelSelected = true <;>
    simp [HandleImGUIInputs, Window.emit, h]

theorem HandleInputs_log (ext : External) (cursor : ℚ × ℚ) (w : Window) :
    (HandleInputs ext cursor w).log =
      w.log ++ ([Call.HandleInputs, Call.glfwGetCursorPos]
        ++ (if w.isKeyboardLockedByImGUI then [] else [Call.KeyboardInputs])
        ++ (if w.isMouseLockedByImGUI then [] else [Call.MouseInputs cursor.1 cursor.2])) := by
  unfold HandleInputs
  simp only [Window.emit]
  cases w.isKeyboardLockedByImGUI <;> cases w.isMouseLockedByImGUI <;> simp

theorem HandleInputs_frame (ext : External) (cursor : ℚ × ℚ) (w : Window) :
    (HandleInputs ext cursor w).previousTime = w.previousTime ∧
      (HandleInputs ext cursor w).counter = w.counter := by
  unfold HandleInputs
  simp only [Window.emit]
  cases w.isKeyboardLockedByImGUI <;> cases w.isMouseLockedByImGUI <;> simp

theorem frameTiming_spec (ext : External) (inp : FrameInput) (w : Window) :
    (frameTiming ext inp w).log = w.log ++ Call.glfwGetTime :: gateCalls inp w ∧
      (frameTiming ext inp w).previousTime
        = (if roundDouble (inp.now - w.previousTime) ≥ sixtieth then inp.now else w.previousTime) ∧
      (frameTiming ext inp w).counter = w.counter + 1 := by
  by_cases hg : roundDouble (inp.now - w.previousTime) ≥ sixtieth
  · have e : frameTiming ext inp w = HandleInputs ext inp.cursor
        { w with
          currentTime := inp.now
          timeDifference := inp.now - w.previousTime
          counter := w.counter + 1
          previousTime := inp.now
          log := w.log ++ [Call.glfwGetTime] ++
            [Call.glfwSetWindowTitle (1 / (inp.now - w.previousTime) * ((w.counter + 1 : Nat) : ℚ))
              ((inp.now - w.previousTime) / ((w.counter + 1 : Nat) : ℚ) * 1000)] } := by
      simp only [frameTiming, Window.emit, if_pos hg]
    rw [e, HandleInputs_log, (HandleInputs_frame _ _ _).1, (HandleInputs_frame _ _ _).2]
    simp only [gateCalls, if_pos hg]
    simp
  · have e : frameTiming ext inp w =
        { w with
          currentTime := inp.now
          timeDifference := inp.now - w.previousTime
          counter := w.counter + 1
          log := w.log ++ [Call.glfwGetTime] } := by
      simp only [frameTiming, Window.emit, if_neg hg]
    rw [e]
    simp only [gateCalls, if_neg hg]
    simp

theorem clearAndUpdateScene_frame (ext : External) (w : Window) :
    (clearAndUpdateScene ext w).log = w.log ++ [Call.glClearColor, Call.glClear, Call.UpdateScene] ∧
      (clearAndUpdateScene ext w).previousTime = w.previousTime ∧
      (clearAndUpdateScene ext w).counter = w.counter := by
  unfold clearAndUpdateScene
  simp [Window.emit]

theorem pushAndPresent_frame (w : Window) :
    (pushAndPresent w).log
        = w.log ++ [Call.HandleImGUIInputs, Call.glfwSwapBuffers, Call.glfwPollEvents] ∧
      (pushAndPresent w).previousTime = w.previousTime ∧
      (pushAndPresent w).counter = w.counter := by
  unfold pushAndPresent
  simp [Window.emit, HandleImGUIInputs_frame]

/-- One frame always completes; its calls, the clock member and the counter. -/
theorem Update_spec (ext : External) (inp : FrameInput) (w : Window) :
    ∃ w' r, Update ext inp w = some w' ∧
      w'.log = w.log ++ (Call.glfwGetTime :: gateCalls inp w
        ++ [Call.glClearColor, Call.glClear, Call.UpdateScene, Call.RenderImGUI] ++ r
        ++ [Call.HandleImGUIInputs, Call.glfwSwapBuffers, Call.glfwPollEvents]) ∧
      (∀ c ∈ r, c.quiet) ∧
      w'.previousTime = (if roundDouble (inp.now - w.previousTime) ≥ sixtieth then inp.now else w.previousTime) ∧
      w'.counter = w.counter + 1 := by
  obtain ⟨w2, r, h2, hlog2, hq, hp2, hc2⟩ :=
    RenderImGUI_spec ext inp.ui (clearAndUpdateScene ext (frameTiming ext inp w))
  obtain ⟨hl0, hp0, hc0⟩ := frameTiming_spec ext inp w
  obtain ⟨hl1, hp1, hc1⟩ := clearAndUpdateScene_frame ext (frameTiming ext inp w)
  obtain ⟨hl3, hp3, hc3⟩ := pushAndPresent_frame w2
  refine ⟨pushAndPresent w2, r, ?_, ?_, hq, ?_, ?_⟩
  · simp only [Update, h2, Option.map_some']
  · rw [hl3, hlog2, hl1, hl0]; simp
  · rw [hp3, hp2, hp1, hp0]
  · rw [hc3, hc2, hc1, hc0]

theorem frameCalls_spec (ext : External) (inp : FrameInput) (w : Window) :
    ∃ r, frameCalls ext inp w = Call.glfwGetTime :: gateCalls inp w
        ++ [Call.glClearColor, Call.glClear, Call.UpdateScene, Call.RenderImGUI] ++ r
        ++ [Call.HandleImGUIInputs, Call.glfwSwapBuffers, Call.glfwPollEvents] ∧
      (∀ c ∈ r, c.quiet) := by
  obtain ⟨w', r, h, hlog, hq, -, -⟩ := Update_spec ext inp w
  refine ⟨r, ?_, hq⟩
  simp only [frameCalls, h, hlog, List.drop_left]

theorem steps_quiet (r : List Call) (h : ∀ c ∈ r, c.quiet) : steps r = [] := by
  induction r with
  | nil => rfl
  | cons c r ih =>
    have hc := (h c (List.mem_cons_self c r)).1
    have hr := ih (fun d hd => h d (List.mem_cons_of_mem c hd))
    simp only [steps] at hr ⊢
    rw [List.filterMap_cons, hc]
    exact hr

theorem titles_quiet (r : List Call) (h : ∀ c ∈ r, c.quiet) : titles r = [] := by
  induction r with
  | nil => rfl
  | cons c r ih =>
    have hc := (h c (List.mem_cons_self c r)).2.1
    have hr := ih (fun d hd => h d (List.mem_cons_of_mem c hd))
    simp only [titles] at hr ⊢
    rw [List.filterMap_cons, hc]
    exact hr

theorem count_quiet (r : List Call) (h : ∀ c ∈ r, c.quiet) : r.count Call.HandleInputs = 0 := by
  rw [List.count_eq_zero]
  intro hmem
  exact (h _ hmem).2.2 rfl

theorem frame_steps (ext : External) (inp : FrameInput) (w : Window) :
    steps (frameCalls ext inp w) =
      (if roundDouble (inp.now - w.previousTime) ≥ sixtieth then [Step.inputDispatch] else [])
        ++ [Step.sceneUpdate, Step.overlayRender, Step.stateSync, Step.present,
          Step.pollEvents] := by
  obtain ⟨r, hf, hq⟩ := frameCalls_spec ext inp w
  have hr := steps_quiet r hq
  simp only [steps] at hr
  rw [hf]
  by_cases hg : roundDouble (inp.now - w.previousTime) ≥ sixtieth
  · simp only [gateCalls, if_pos hg, steps]
    cases w.isKeyboardLockedByImGUI <;> cases w.isMouseLockedByImGUI <;>
      simp [List.filterMap_append, hr, Call.step]
  · simp only [gateCalls, if_neg hg, steps]
    simp [List.filterMap_append, hr, Call.step]

theorem frame_titles (ext : External) (inp : FrameInput) (w : Window) :
    titles (frameCalls ext inp w) =
      (if roundDouble (inp.now - w.previousTime) ≥ sixtieth then
        [(1 / (inp.now - w.previousTime) * ((w.counter + 1 : Nat) : ℚ),
          (inp.now - w.previousTime) / ((w.counter + 1 : Nat) : ℚ) * 1000)]
      else []) := by
  obtain ⟨r, hf, hq⟩ := frameCalls_spec ext inp w
  have hr := titles_quiet r hq
  simp only [titles] at hr
  rw [hf]
  by_cases hg : roundDouble (inp.now - w.previousTime) ≥ sixtieth
  · simp only [gateCalls, if_pos hg, titles]
    cases w.isKeyboardLockedByImGUI <;> cases w.isMouseLockedByImGUI <;>
      simp [List.filterMap_append, hr, Call.title]
  · simp only [gateCalls, if_neg hg, titles]
    simp [List.filterMap_append, hr, Call.title]

theorem frame_dispatches (ext : External) (inp : FrameInput) (w : Window) :
    (frameCalls ext inp w).count Call.HandleInputs =
      (if roundDouble (inp.now - w.previousTime) ≥ sixtieth then 1 else 0) := by
  obtain ⟨r, hf, hq⟩ := frameCalls_spec ext inp w
  have hr := count_quiet r hq
  rw [hf]
  by_cases hg : roundDouble (inp.now - w.previousTime) ≥ sixtieth
  · simp only [gateCalls, if_pos hg]
    cases w.isKeyboardLockedByImGUI <;> cases w.isMouseLockedByImGUI <;>
      simp [List.count_append, List.count_cons, hr]
  · simp only [gateCalls, if_neg hg]
    simp [List.count_append, List.count_cons, hr]

theorem frame_dispatched_iff (ext : External) (inp : FrameInput) (w : Window) :
    Call.HandleInputs ∈ frameCalls ext inp w ↔ roundDouble (inp.now - w.previousTime) ≥ sixtieth := by
  rw [← List.count_pos_iff, frame_dispatches]
  by_cases hg : roundDouble (inp.now - w.previousTime) ≥ sixtieth
  · rw [if_pos hg]
    exact ⟨fun _ => hg, fun _ => Nat.one_pos⟩
  · rw [if_neg hg]
    exact ⟨fun h => absurd h (Nat.lt_irrefl 0), fun h => absurd h hg⟩

/-! ## Input dispatch -/

/-- C1: one call of `HandleInputs` polls the cursor once, calls the camera's
keyboard handler once if `isKeyboardLockedByImGUI` is false and not at all if
it is true, and calls the camera's mouse handler once, with the coordinates
polled in this call, if `isMouseLockedByImGUI` is false and not at all if it
is true; each handler looks at its own flag only. -/
theorem HandleInputs_routes_by_flag (ext : External) (cursor : ℚ × ℚ) (w : Window) :
    (HandleInputs ext cursor w).log =
        w.log ++ ([Call.HandleInputs, Call.glfwGetCursorPos]
          ++ (if w.isKeyboardLockedByImGUI then [] else [Call.KeyboardInputs])
          ++ (if w.isMouseLockedByImGUI then [] else [Call.MouseInputs cursor.1 cursor.2])) ∧
      ((HandleInputs ext cursor w).log.drop w.log.length).count Call.glfwGetCursorPos = 1 ∧
      ((HandleInputs ext cursor w).log.drop w.log.length).count Call.KeyboardInputs
        = (if w.isKeyboardLockedByImGUI then 0 else 1) ∧
      mouseCalls ((HandleInputs ext cursor w).log.drop w.log.length)
        = (if w.isMouseLockedByImGUI then [] else [cursor]) ∧
      (HandleInputs ext cursor w).sceneCamera =
        (if w.isMouseLockedByImGUI then fun c => c
          else fun c => ext.MouseInputs c cursor.1 cursor.2)
          ((if w.isKeyboardLockedByImGUI then fun c => c else ext.KeyboardInputs)
            w.sceneCamera) := by
  refine ⟨HandleInputs_log ext cursor w, ?_, ?_, ?_, ?_⟩
  · rw [HandleInputs_log, List.drop_left]
    cases w.isKeyboardLockedByImGUI <;> cases w.isMouseLockedByImGUI <;>
      simp [List.count_cons]
  · rw [HandleInputs_log, List.drop_left]
    cases w.isKeyboardLockedByImGUI <;> cases w.isMouseLockedByImGUI <;>
      simp [List.count_cons]
  · rw [HandleInputs_log, List.drop_left]
    cases w.isKeyboardLockedByImGUI <;> cases w.isMouseLockedByImGUI <;>
      simp [mouseCalls, Call.mouse]
  · unfold HandleInputs
    simp only [Window.emit]
    cases w.isKeyboardLockedByImGUI <;> cases w.isMouseLockedByImGUI <;> simp

/-! ## The sixtieth-of-a-second gate -/

/-- C3 (counterexample): from the sample window, whose `previousTime` is 0,
the frame at `now = 4803839602528529 / 2^58`, the double `1.0 / 60.0`, comes
less than 1/60 s after `previousTime`, and yet it rewrites the title, enters
`HandleInputs` and moves `previousTime` to `now`. -/
theorem Update_gates_below_sixtieth :
    (sampleFrame (4803839602528529 / 288230376151711744)).now - sampleWindow.previousTime
        < 1 / 60 ∧
      ∃ w', Update sampleExternal (sampleFrame (4803839602528529 / 288230376151711744))
          sampleWindow = some w' ∧
        Call.HandleInputs ∈
          frameCalls sampleExternal (sampleFrame (4803839602528529 / 288230376151711744))
            sampleWindow ∧
        (titles (frameCalls sampleExternal
          (sampleFrame (4803839602528529 / 288230376151711744)) sampleWindow)).length = 1 ∧
        w'.previousTime = 4803839602528529 / 288230376151711744 := by
  have hg : roundDouble ((sampleFrame (4803839602528529 / 288230376151711744)).now
      - sampleWindow.previousTime) ≥ sixtieth :=
    sixtieth_le_roundDouble _ (by rw [sixtieth_eq]; norm_num [sampleFrame, sampleWindow])
  refine ⟨by norm_num [sampleFrame, sampleWindow], ?_⟩
  obtain ⟨w', r, h, -, -, hp, -⟩ :=
    Update_spec sampleExternal (sampleFrame (4803839602528529 / 288230376151711744)) sampleWindow
  refine ⟨w', h, (frame_dispatched_iff _ _ _).mpr hg, ?_, ?_⟩
  · rw [frame_titles, if_pos hg]
    rfl
  · rw [hp, if_pos hg]
    rfl

/-- C3 (amended): a frame rewrites the title and enters `HandleInputs` (once
each) if and only if the difference `now - previousTime`, rounded to a
double, is at least the double `1.0 / 60.0 = 4803839602528529 / 2^58`; then
`previousTime` becomes `now`, otherwise neither happens and `previousTime` is
left as it was.  A difference of at least 1/60 always passes, a difference
that passes is at least `1.0 / 60.0 - 2^-59`, and with `previousTime = 0` the
frame at `now = 0.005` does not pass. -/
theorem Update_gate (ext : External) (inp : FrameInput) (w : Window) :
    (∃ w', Update ext inp w = some w' ∧
      (if roundDouble (inp.now - w.previousTime) ≥ sixtieth then
        (titles (frameCalls ext inp w)).length = 1 ∧
          (frameCalls ext inp w).count Call.HandleInputs = 1 ∧
          w'.previousTime = inp.now
      else
        titles (frameCalls ext inp w) = [] ∧
          (frameCalls ext inp w).count Call.HandleInputs = 0 ∧
          w'.previousTime = w.previousTime)) ∧
      sixtieth = 4803839602528529 / 288230376151711744 ∧
      (1 / 60 ≤ inp.now - w.previousTime →
        roundDouble (inp.now - w.previousTime) ≥ sixtieth) ∧
      (roundDouble (inp.now - w.previousTime) ≥ sixtieth →
        sixtieth - 1 / 2 ^ 59 ≤ inp.now - w.previousTime) ∧
      (titles (frameCalls ext { inp with now := 5 / 1000 } { w with previousTime := 0 }) = [] ∧
        (frameCalls ext { inp with now := 5 / 1000 } { w with previousTime := 0 }).count
          Call.HandleInputs = 0) := by
  refine ⟨?_, sixtieth_eq, ?_, le_of_sixtieth_le_roundDouble _, ?_⟩
  · obtain ⟨w', r, h, -, -, hp, -⟩ := Update_spec ext inp w
    refine ⟨w', h, ?_⟩
    rw [frame_titles, frame_dispatches, hp]
    by_cases hg : roundDouble (inp.now - w.previousTime) ≥ sixtieth
    · simp only [if_pos hg, List.length_singleton, and_self]
    · simp only [if_neg hg, and_self]
  · intro h
    refine sixtieth_le_roundDouble _ (le_trans ?_ h)
    rw [sixtieth_eq]
    norm_num
  · rw [frame_titles, frame_dispatches]
    have hg : ¬ (roundDouble ((5 : ℚ) / 1000 - 0) ≥ sixtieth) := by
      intro hge
      have := le_of_sixtieth_le_roundDouble _ hge
      rw [sixtieth_eq] at this
      norm_num at this
    simp only [if_neg hg, and_self]

/-- Witness for C3: from the sample window the frame at `now = 1/50` comes at
least 1/60 s after `previousTime = 0` and passes the comparison. -/
theorem Update_gate_witness :
    (1 : ℚ) / 60 ≤ (sampleFrame (1 / 50)).now - sampleWindow.previousTime ∧
      roundDouble ((sampleFrame (1 / 50)).now - sampleWindow.previousTime) ≥ sixtieth :=
  ⟨by norm_num [sampleFrame, sampleWindow],
    (Update_gate sampleExternal (sampleFrame (1 / 50)) sampleWindow).2.2.1
      (by norm_num [sampleFrame, sampleWindow])⟩

/-- C2 (the code at the failing input): every frame leaves the frame counter
one higher than it found it, whether or not the frame is gated; from the
sample window, whose clock members and counter are zero, the frame at
`now = 1/50` enters `HandleInputs` and rewrites the title, and leaves the
counter at 1, not 0. -/
theorem Update_gated_frame_counter :
    (∀ (ext : External) (inp : FrameInput) (w : Window),
      ∃ w', Update ext inp w = some w' ∧ w'.counter = w.counter + 1) ∧
    ∃ w', Update sampleExternal (sampleFrame (1 / 50)) sampleWindow = some w' ∧
      Call.HandleInputs ∈ frameCalls sampleExternal (sampleFrame (1 / 50)) sampleWindow ∧
      titles (frameCalls sampleExternal (sampleFrame (1 / 50)) sampleWindow) = [(50, 20)] ∧
      w'.counter = 1 := by
  constructor
  · intro ext inp w
    obtain ⟨w', r, h, -, -, -, hc⟩ := Update_spec ext inp w
    exact ⟨w', h, hc⟩
  · obtain ⟨w', r, h, -, -, -, hc⟩ :=
      Update_spec sampleExternal (sampleFrame (1 / 50)) sampleWindow
    refine ⟨w', h, ?_, ?_, ?_⟩
    · exact (frame_dispatched_iff _ _ _).mpr sample_gate
    · rw [frame_titles, if_pos sample_gate]
      norm_num [sampleFrame, sampleWindow]
    · rw [hc]
      rfl

/-- C4 (the code at the failing input): a gated frame writes the title
`(counter + 1) / T` and `T / (counter + 1) * 1000` for the counter it found,
which counts every frame since start-up.  From the sample window the frames
at `now = 1/50` and `now = 1/25` both rewrite the title; the second is the
only frame counted since the first and comes 1/50 s after it, so the averaged
title is 50 frames per second and 20 ms, and the title written is 100 frames
per second and 10 ms. -/
theorem Update_second_title :
    (∀ (ext : External) (inp : FrameInput) (w : Window),
      titles (frameCalls ext inp w) =
        (if roundDouble (inp.now - w.previousTime) ≥ sixtieth then
          [(1 / (inp.now - w.previousTime) * ((w.counter + 1 : Nat) : ℚ),
            (inp.now - w.previousTime) / ((w.counter + 1 : Nat) : ℚ) * 1000)]
        else [])) ∧
    ∃ w₁ w₂, Update sampleExternal (sampleFrame (1 / 50)) sampleWindow = some w₁ ∧
      Update sampleExternal (sampleFrame (1 / 25)) w₁ = some w₂ ∧
      titles (frameCalls sampleExternal (sampleFrame (1 / 50)) sampleWindow) = [(50, 20)] ∧
      titles (frameCalls sampleExternal (sampleFrame (1 / 25)) w₁) = [(100, 10)] ∧
      averagedTitle (1 / 25 - 1 / 50) 1 = (50, 20) := by
  refine ⟨frame_titles, ?_⟩
  obtain ⟨w₁, r₁, h₁, -, -, hp₁, hc₁⟩ :=
    Update_spec sampleExternal (sampleFrame (1 / 50)) sampleWindow
  obtain ⟨w₂, r₂, h₂, -, -, -, -⟩ := Update_spec sampleExternal (sampleFrame (1 / 25)) w₁
  have hp : w₁.previousTime = 1 / 50 := by
    rw [hp₁, if_pos sample_gate]; rfl
  have hc : w₁.counter = 1 := by
    rw [hc₁]; rfl
  have hg₂ : roundDouble ((sampleFrame (1 / 25)).now - w₁.previousTime) ≥ sixtieth := by
    rw [hp]
    exact sixtieth_le_roundDouble _ (by rw [sixtieth_eq]; norm_num [sampleFrame])
  refine ⟨w₁, w₂, h₁, h₂, ?_, ?_, ?_⟩
  · rw [frame_titles, if_pos sample_gate]
    norm_num [sampleFrame, sampleWindow]
  · rw [frame_titles, if_pos hg₂, hp, hc]
    norm_num [sampleFrame]
  · norm_num [averagedTitle]

/-! ## Selection and snapshot -/

/-- C5: whatever the snapshot held before, when the combo reports a change
to an index `h` of the model list, the scene is asked to select `h`, model
`h` becomes the selected model, and the snapshot's position, rotation and
scale become those of model `h`. -/
theorem selectionCombo_pulls (pick : Option Int) (w : Window) (h : Int) (m : Model)
    (h0 : 0 ≤ h) (hm : w.scene.models.get? h.toNat = some m)
    (hc : ImGui.Combo pick w.selectedItemIndex w.scene.getModelNames = (true, h)) :
    ∃ w', selectionCombo pick w.scene.getModelNames w = some w' ∧
      w'.selectedItemIndex = h ∧
      w'.log = w.log ++ [Call.selectModel h] ∧
      w'.scene.selected = some h.toNat ∧
      w'.scene.selectedModel = some m ∧
      w'.scene.models = w.scene.models ∧
      w'.position = m.position ∧ w'.rotation = m.rotation ∧ w'.scale = m.scale := by
  have hp := pullSelection_valid { w with selectedItemIndex := h } m h0 hm
  have e : selectionCombo pick w.scene.getModelNames w
      = pullSelection { w with selectedItemIndex := h } := by
    simp only [selectionCombo, hc, if_true]
  refine ⟨_, e.trans hp, rfl, rfl, rfl, ?_, rfl, rfl, rfl, rfl⟩
  simpa [Scene.selectedModel] using hm

/-- Witness for C5: in the sample scene with the models "cube" and "sphere"
the combo reports a change to index 1, and the snapshot becomes the
transform of "sphere". -/
theorem selectionCombo_pulls_witness :
    ((0 : Int) ≤ 1 ∧
        sampleWindow.scene.models.get? (1 : Int).toNat = some
          { name := "sphere", position := ⟨4, 5, 6⟩, rotation := ⟨7, 8, 9⟩,
            scale := ⟨1, 1, 1⟩ } ∧
        ImGui.Combo (some 1) sampleWindow.selectedItemIndex sampleWindow.scene.getModelNames
          = (true, 1)) ∧
      ∃ w', selectionCombo (some 1) sampleWindow.scene.getModelNames sampleWindow = some w' ∧
        w'.selectedItemIndex = 1 ∧
        w'.log = sampleWindow.log ++ [Call.selectModel 1] ∧
        w'.scene.selected = some (1 : Int).toNat ∧
        w'.scene.selectedModel = some
          { name := "sphere", position := ⟨4, 5, 6⟩, rotation := ⟨7, 8, 9⟩,
            scale := ⟨1, 1, 1⟩ } ∧
        w'.scene.models = sampleWindow.scene.models ∧
        w'.position = ⟨4, 5, 6⟩ ∧ w'.rotation = ⟨7, 8, 9⟩ ∧ w'.scale = ⟨1, 1, 1⟩ :=
  ⟨⟨by decide, by rfl, by decide⟩,
    selectionCombo_pulls (some 1) sampleWindow 1
      { name := "sphere", position := ⟨4, 5, 6⟩, rotation := ⟨7, 8, 9⟩, scale := ⟨1, 1, 1⟩ }
      (by decide) (by rfl) (by decide)⟩

/-- The push on a record whose scene has a valid selected model. -/
theorem HandleImGUIInputs_selected (w : Window) (i : Nat) (m : Model)
    (hs : w.scene.selected = some i) (hm : w.scene.models.get? i = some m) :
    (HandleImGUIInputs w).scene =
        { models := w.scene.models.set i
            { name := m.name, position := w.position, rotation := w.rotation, scale := w.scale }
          selected := some i
          light := { color := w.lightColor } } ∧
      (HandleImGUIInputs w).sceneCamera = { w.sceneCamera with speed := w.cameraSpeed } := by
  obtain ⟨hlt, hg⟩ := List.get?_eq_some.mp hm
  have hg2 : w.scene.models[i] = m := by simpa using hg
  simp [HandleImGUIInputs, Window.emit, Scene.isModelSelected, Scene.selectedModel,
    Scene.updateSelectedModel, hs, hlt, hg2, Model.setPosition, Model.setRotation,
    Model.setScale, Light.setColor]

theorem HandleImGUIInputs_unselected (w : Window) (hs : w.scene.selectedModel = none) :
    (HandleImGUIInputs w).scene = { w.scene with light := { color := w.lightColor } } ∧
      (HandleImGUIInputs w).sceneCamera = { w.sceneCamera with speed := w.cameraSpeed } := by
  simp [HandleImGUIInputs, Window.emit, Scene.isModelSelected, hs, Light.setColor]

theorem HandleImGUIInputs_snapshot (w : Window) :
    (HandleImGUIInputs w).position = w.position ∧ (HandleImGUIInputs w).rotation = w.rotation ∧
      (HandleImGUIInputs w).scale = w.scale ∧ (HandleImGUIInputs w).lightColor = w.lightColor ∧
      (HandleImGUIInputs w).cameraSpeed = w.cameraSpeed := by
  by_cases h : w.scene.isModelSelected = true <;>
    simp [HandleImGUIInputs, Window.emit, h]

theorem HandleImGUIInputs_camera (w : Window) :
    (HandleImGUIInputs w).sceneCamera = { w.sceneCamera with speed := w.cameraSpeed } := by
  by_cases h : w.scene.isModelSelected = true <;>
    simp [HandleImGUIInputs, Window.emit, h]

/-- C6: for every window record, running `HandleImGUIInputs` a second time
right after the first leaves the scene (the selected model's position,
rotation and scale, and the light colour) and the camera (its speed) as the
first run left them; the push itself does not change the snapshot. -/
theorem HandleImGUIInputs_idempotent (w : Window) :
    (HandleImGUIInputs (HandleImGUIInputs w)).scene = (HandleImGUIInputs w).scene ∧
      (HandleImGUIInputs (HandleImGUIInputs w)).sceneCamera = (HandleImGUIInputs w).sceneCamera ∧
      (HandleImGUIInputs w).position = w.position ∧
      (HandleImGUIInputs w).rotation = w.rotation ∧
      (HandleImGUIInputs w).scale = w.scale ∧
      (HandleImGUIInputs w).lightColor = w.lightColor ∧
      (HandleImGUIInputs w).cameraSpeed = w.cameraSpeed := by
  obtain ⟨s1, s2, s3, s4, s5⟩ := HandleImGUIInputs_snapshot w
  refine ⟨?_, ?_, s1, s2, s3, s4, s5⟩
  · cases hsel : w.scene.selectedModel with
    | none =>
      obtain ⟨e1, e1c⟩ := HandleImGUIInputs_unselected w hsel
      have hsel2 : (HandleImGUIInputs w).scene.selectedModel = none := by
        rw [e1]; simpa [Scene.selectedModel] using hsel
      obtain ⟨e2, -⟩ := HandleImGUIInputs_unselected _ hsel2
      rw [e2, s4, e1]
    | some m =>
      obtain ⟨i, hs, hm⟩ : ∃ i, w.scene.selected = some i ∧ w.scene.models.get? i = some m := by
        unfold Scene.selectedModel at hsel
        split at hsel
        · exact ⟨_, by assumption, hsel⟩
        · exact absurd hsel (by simp)
      obtain ⟨e1, -⟩ := HandleImGUIInputs_selected w i m hs hm
      obtain ⟨hlt, -⟩ := List.get?_eq_some.mp hm
      have hs1 : (HandleImGUIInputs w).scene.selected = some i := by rw [e1]
      have hm1 : (HandleImGUIInputs w).scene.models.get? i = some
          { name := m.name, position := w.position, rotation := w.rotation,
            scale := w.scale } := by
        rw [e1]; simp [hlt]
      obtain ⟨e2, -⟩ := HandleImGUIInputs_selected _ i _ hs1 hm1
      rw [e2, s1, s2, s3, s4, e1]
      simp
  · rw [HandleImGUIInputs_camera, HandleImGUIInputs_camera, s5]

/-! ## Shutdown -/

/-- C7 (counterexample): on the sample window a second `closeWindow` repeats
the five release calls, so `glfwTerminate` has been called twice and the
record is not what it was after the first call. -/
theorem closeWindow_twice_differs :
    (closeWindow (closeWindow sampleWindow)).log = releaseCalls ++ releaseCalls ∧
      (closeWindow (closeWindow sampleWindow)).log.count Call.glfwTerminate = 2 ∧
      closeWindow (closeWindow sampleWindow) ≠ closeWindow sampleWindow := by
  refine ⟨by decide, by decide, ?_⟩
  intro h
  have hl := congrArg (fun w => w.log.length) h
  revert hl
  decide

/-- C7 (amended): every call of `closeWindow` performs the five release calls
once each, in the order overlay renderer shutdown, overlay platform shutdown,
context destruction, window destruction, terminate, and changes no member;
the destructor after an explicit call performs them a second time. -/
theorem closeWindow_releases_each_call (w : Window) :
    closeWindow w = { w with log := w.log ++ releaseCalls } ∧
      destroy (closeWindow w) = { w with log := w.log ++ releaseCalls ++ releaseCalls } := by
  constructor
  · simp [closeWindow, Window.emit, releaseCalls]
  · simp [destroy, closeWindow, Window.emit, releaseCalls]

/-! ## Order of the steps of a frame -/

/-- C8 (counterexample): from the sample window the frame at `now = 1/50`
dispatches input, and its steps start with the input dispatch, before the
scene update, the overlay render and the state sync. -/
theorem Update_dispatch_precedes_sync :
    Call.HandleInputs ∈ frameCalls sampleExternal (sampleFrame (1 / 50)) sampleWindow ∧
      steps (frameCalls sampleExternal (sampleFrame (1 / 50)) sampleWindow) =
        [Step.inputDispatch, Step.sceneUpdate, Step.overlayRender, Step.stateSync,
          Step.present, Step.pollEvents] ∧
      steps (frameCalls sampleExternal (sampleFrame (1 / 50)) sampleWindow) ≠
        [Step.sceneUpdate, Step.overlayRender, Step.stateSync, Step.inputDispatch,
          Step.present, Step.pollEvents] := by
  have hg := sample_gate
  refine ⟨(frame_dispatched_iff _ _ _).mpr hg, ?_, ?_⟩
  · rw [frame_steps, if_pos hg]; rfl
  · rw [frame_steps, if_pos hg]; decide

/-- C8 (amended): every frame completes, and its steps are, in order, the
input dispatch if the frame dispatches input, then scene update, overlay
render, state sync, present and event polling; the input dispatch of a frame
comes before that frame's state sync. -/
theorem Update_step_order (ext : External) (inp : FrameInput) (w : Window) :
    ∃ w', Update ext inp w = some w' ∧
      steps (frameCalls ext inp w) =
        (if Call.HandleInputs ∈ frameCalls ext inp w then [Step.inputDispatch] else [])
          ++ [Step.sceneUpdate, Step.overlayRender, Step.stateSync, Step.present,
            Step.pollEvents] := by
  obtain ⟨w', r, h, -, -, -, -⟩ := Update_spec ext inp w
  refine ⟨w', h, ?_⟩
  rw [frame_steps]
  by_cases hg : roundDouble (inp.now - w.previousTime) ≥ sixtieth
  · rw [if_pos hg, if_pos ((frame_dispatched_iff _ _ _).mpr hg)]
  · rw [if_neg hg, if_neg (fun hm => hg ((frame_dispatched_iff _ _ _).mp hm))]

/-! ## Rate of the input dispatch -/

theorem run_total (ext : External) (inps : List FrameInput) (w : Window) :
    ∃ w', run ext inps w = some w' := by
  induction inps generalizing w with
  | nil => exact ⟨w, rfl⟩
  | cons inp rest ih =>
    obtain ⟨w', r, h, -, -, -, -⟩ := Update_spec ext inp w
    obtain ⟨w'', h'⟩ := ih w'
    exact ⟨w'', by simp only [run, h, h']⟩

theorem dispatchTimes_chain (ext : External) (inps : List FrameInput) (w : Window) :
    List.Chain' (fun a b : ℚ => roundDouble (b - a) ≥ sixtieth) (dispatchTimes ext inps w) ∧
      ∀ t ∈ (dispatchTimes ext inps w).head?, roundDouble (t - w.previousTime) ≥ sixtieth := by
  induction inps generalizing w with
  | nil => simp [dispatchTimes]
  | cons inp rest ih =>
    obtain ⟨w', r, h, -, -, hp, -⟩ := Update_spec ext inp w
    obtain ⟨ihc, ihh⟩ := ih w'
    by_cases hg : roundDouble (inp.now - w.previousTime) ≥ sixtieth
    · have hmem := (frame_dispatched_iff ext inp w).mpr hg
      rw [if_pos hg] at hp
      have e : dispatchTimes ext (inp :: rest) w = inp.now :: dispatchTimes ext rest w' := by
        simp only [dispatchTimes, h, if_pos hmem, List.singleton_append]
      rw [e]
      refine ⟨List.chain'_cons'.mpr ⟨?_, ihc⟩, ?_⟩
      · intro t ht
        have := ihh t ht
        rwa [hp] at this
      · intro t ht
        simp only [List.head?_cons, Option.mem_def, Option.some.injEq] at ht
        rw [← ht]
        exact hg
    · have hmem : Call.HandleInputs ∉ frameCalls ext inp w :=
        fun hm => hg ((frame_dispatched_iff ext inp w).mp hm)
      rw [if_neg hg] at hp
      have e : dispatchTimes ext (inp :: rest) w = dispatchTimes ext rest w' := by
        simp only [dispatchTimes, h, if_neg hmem, List.nil_append]
      rw [e]
      refine ⟨ihc, ?_⟩
      intro t ht
      have := ihh t ht
      rwa [hp] at this

/-- C9 (counterexample): from the sample window the frames at
`now = 4803839602528529 / 2^58`, the double `1.0 / 60.0`, and at twice that
both enter `HandleInputs`, and their clock readings are less than 1/60 s
apart. -/
theorem dispatch_closer_than_sixtieth :
    dispatchTimes sampleExternal
        [sampleFrame (4803839602528529 / 288230376151711744),
          sampleFrame (4803839602528529 / 144115188075855872)] sampleWindow
      = [4803839602528529 / 288230376151711744, 4803839602528529 / 144115188075855872] ∧
    (4803839602528529 / 144115188075855872 - 4803839602528529 / 288230376151711744 : ℚ)
      < 1 / 60 := by
  refine ⟨?_, by norm_num⟩
  have hg₁ : roundDouble ((sampleFrame (4803839602528529 / 288230376151711744)).now
      - sampleWindow.previousTime) ≥ sixtieth :=
    sixtieth_le_roundDouble _ (by rw [sixtieth_eq]; norm_num [sampleFrame, sampleWindow])
  obtain ⟨w₁, r₁, h₁, -, -, hp₁, -⟩ :=
    Update_spec sampleExternal (sampleFrame (4803839602528529 / 288230376151711744)) sampleWindow
  have hp : w₁.previousTime = 4803839602528529 / 288230376151711744 := by
    rw [hp₁, if_pos hg₁]; rfl
  have hg₂ : roundDouble ((sampleFrame (4803839602528529 / 144115188075855872)).now
      - w₁.previousTime) ≥ sixtieth := by
    rw [hp]
    exact sixtieth_le_roundDouble _ (by rw [sixtieth_eq]; norm_num [sampleFrame])
  obtain ⟨w₂, r₂, h₂, -, -, -, -⟩ :=
    Update_spec sampleExternal (sampleFrame (4803839602528529 / 144115188075855872)) w₁
  have m₁ := (frame_dispatched_iff sampleExternal _ _).mpr hg₁
  have m₂ := (frame_dispatched_iff sampleExternal _ _).mpr hg₂
  simp only [dispatchTimes, h₁, h₂, if_pos m₁, if_pos m₂]
  rfl

/-- C9 (amended): every run of frames completes, and for any two successive
frames during which `HandleInputs` is entered the difference of the clock
readings, rounded to a double, is at least the double
`1.0 / 60.0 = 4803839602528529 / 2^58`, so that the readings lie at least
`1.0 / 60.0 - 2^-59` s apart, whatever the number of frames in between. -/
theorem dispatch_spacing (ext : External) (inps : List FrameInput) (w : Window) :
    (∃ w', run ext inps w = some w') ∧
      List.Chain'
        (fun a b : ℚ => roundDouble (b - a) ≥ sixtieth ∧ sixtieth - 1 / 2 ^ 59 ≤ b - a)
        (dispatchTimes ext inps w) ∧
      sixtieth = 4803839602528529 / 288230376151711744 :=
  ⟨run_total ext inps w,
    List.Chain'.imp (fun _ _ h => ⟨h, le_of_sixtieth_le_roundDouble _ h⟩)
      (dispatchTimes_chain ext inps w).1,
    sixtieth_eq⟩

/-! ## The combo's name lookup -/

/-- C10 (counterexample): for a list of 2^31 names the size converts to a
negative `int`, and the lookup of item 0, which is in range, returns
`false`. -/
theorem vector_getter_huge_list :
    (0 : Int) ≤ 0 ∧ (0 : Int) < ((List.replicate 2147483648 "").length : Int) ∧
      ImGui.vector_getter (List.replicate 2147483648 "") 0 = ImGui.GetterResult.notAnItem := by
  refine ⟨le_refl _, ?_, ?_⟩
  · rw [List.length_replicate]; decide
  · unfold ImGui.vector_getter
    rw [List.length_replicate]
    rw [if_pos]
    right
    decide

/-- C10 (amended): for every list of names and every `idx` the lookup returns
`false` and reads nothing when `idx < 0` or `idx` is at least the length, it
never fails in the checked access, and when it returns `true` the index is
in range and the text is the name at `idx`; for a list of fewer than 2^31
names it returns `true` with that name for every `idx` in range. -/
theorem vector_getter_bounds (vec : List String) (idx : Int) :
    (idx < 0 ∨ idx ≥ (vec.length : Int) →
        ImGui.vector_getter vec idx = ImGui.GetterResult.notAnItem) ∧
      ImGui.vector_getter vec idx ≠ ImGui.GetterResult.outOfRange ∧
      (∀ s, ImGui.vector_getter vec idx = ImGui.GetterResult.item s →
        0 ≤ idx ∧ idx < (vec.length : Int) ∧ vec.get? idx.toNat = some s) ∧
      ((vec.length : Int) < 2147483648 → 0 ≤ idx → idx < (vec.length : Int) →
        ∃ s, vec.get? idx.toNat = some s ∧
          ImGui.vector_getter vec idx = ImGui.GetterResult.item s) := by
  have hle := toInt32_le (vec.length : Int) (by omega)
  refine ⟨?_, ?_, ?_, ?_⟩
  · intro h
    unfold ImGui.vector_getter
    rw [if_pos]
    omega
  · unfold ImGui.vector_getter
    split_ifs with hc
    · simp
    · have hlt : idx.toNat < vec.length := by omega
      rw [List.get?_eq_get hlt]
      simp
  · intro s hs
    unfold ImGui.vector_getter at hs
    split_ifs at hs with hc
    have hlt : idx.toNat < vec.length := by omega
    rw [List.get?_eq_get hlt] at hs ⊢
    simp only [ImGui.GetterResult.item.injEq] at hs
    exact ⟨by omega, by omega, by rw [hs]⟩
  · intro hsmall h0 hlt
    have heq := toInt32_eq (vec.length : Int) (by omega) hsmall
    have hlt' : idx.toNat < vec.length := by omega
    refine ⟨vec.get ⟨idx.toNat, hlt'⟩, List.get?_eq_get hlt', ?_⟩
    unfold ImGui.vector_getter
    rw [if_neg (by omega), List.get?_eq_get hlt']

/-- Witness for C10: the lookup of item 1 in the names "cube", "sphere". -/
theorem vector_getter_bounds_witness :
    ((["cube", "sphere"].length : Int) < 2147483648 ∧ (0 : Int) ≤ 1 ∧
        (1 : Int) < (["cube", "sphere"].length : Int)) ∧
      ∃ s, ["cube", "sphere"].get? (1 : Int).toNat = some s ∧
        ImGui.vector_getter ["cube", "sphere"] 1 = ImGui.GetterResult.item s :=
  ⟨⟨by decide, by decide, by decide⟩,
    (vector_getter_bounds ["cube", "sphere"] 1).2.2.2 (by decide) (by decide) (by decide)⟩

end Rasterizer
